import Mathlib

/-!
Verification of the climate-logger correction pipeline
(`climatelogger/climate_logger.ipynb`).

The pipeline consists of the pure physics functions `buck_vapor_pressure`,
`ambient_temperature`, `ambient_pressure`, `ambient_humidity`, and the
`Sensor` class whose `update` method reads raw values, validates them,
timestamps the sample and computes the corrected (ambient) record.

Python floats are modelled as real numbers; the `assert` statements of the
source are modelled by `Except LoggerError` results, with the error kinds
named as in the specification (`InvalidInput` for a violated model-validity
precondition, `SensorOutOfRange` for an implausible raw reading,
`InternalError` for a violated internal invariant, `NotReady` for an
attribute access before the attribute was assigned).
-/

/-- Error kinds of the correction pipeline, named as in the specification.
Each carries the message string of the corresponding Python `assert`. -/
inductive LoggerError where
  | InvalidInput (msg : String) : LoggerError
  | SensorOutOfRange (msg : String) : LoggerError
  | InternalError (msg : String) : LoggerError
  | StorageError (msg : String) : LoggerError
  | NotReady : LoggerError
deriving Repr, DecidableEq

/-- The list `buck_constants` of the source. -/
def buck_constants : List ℝ := [1.0007, 3.46e-6, 6.1121, 17.502, 240.97]

/-- The arithmetic of `buck_vapor_pressure` (source lines: the
`enhancement_factor`, `temperature_exponent` and `vapor_pressure`
assignments), without the `assert` statements. -/
noncomputable def buck_vapor_pressure (air_pressure temperature : ℝ) : ℝ :=
  let enhancement_factor := buck_constants[0]! + buck_constants[1]! * air_pressure
  let temperature_exponent :=
    buck_constants[3]! * temperature / (buck_constants[4]! + temperature)
  enhancement_factor * buck_constants[2]! * Real.exp temperature_exponent

/-- `buck_vapor_pressure` with its four `assert` statements, in source
order: input air pressure, lower and upper temperature bound, and the
positivity of the output. -/
noncomputable def buck_vapor_pressure_run (air_pressure temperature : ℝ) :
    Except LoggerError ℝ :=
  if air_pressure > 0 then
    if temperature ≥ -20 then
      if temperature ≤ 50 then
        let vapor_pressure := buck_vapor_pressure air_pressure temperature
        if vapor_pressure > 0 then
          .ok vapor_pressure
        else
          .error (.InternalError "buck_vapor_pressure: negative output vapor pressure")
      else .error (.InvalidInput "buck_vapor_pressure: temperature above validity range")
    else .error (.InvalidInput "buck_vapor_pressure: temperature below validity range")
  else .error (.InvalidInput "buck_vapor_pressure: negative input air pressure")

/-- Modelled from the spec (section 4.1): the saturation-vapor-pressure
formula stated in the specification, to be compared with the source's
`buck_vapor_pressure`. -/
noncomputable def spec_saturation_vapor_pressure (air_pressure temperature : ℝ) : ℝ :=
  (1.0007 + 3.46e-6 * air_pressure) * 6.1121 *
    Real.exp (17.502 * temperature / (240.97 + temperature))

/-- `ambient_temperature` of the source: linear self-heating correction
with the fit coefficients `a_fit` and `b_fit`. -/
noncomputable def ambient_temperature (measured_temperature : ℝ) : ℝ :=
  let a_fit : ℝ := 0.8542
  let b_fit : ℝ := -9.675
  a_fit * measured_temperature + b_fit

/-- `ambient_pressure` of the source: the enclosure is vented, no
correction required. -/
def ambient_pressure (measured_pressure : ℝ) : ℝ :=
  measured_pressure

/-- The arithmetic of `ambient_humidity` of the source (ratio of the two
saturation vapor pressures), without the asserts inside the two
`buck_vapor_pressure` calls. -/
noncomputable def ambient_humidity
    (measured_humidity measured_temperature measured_pressure : ℝ)
    (ambient_temperature ambient_pressure : ℝ) : ℝ :=
  let inside_vapor_pressure :=
    buck_vapor_pressure measured_pressure measured_temperature
  let ambient_vapor_pressure :=
    buck_vapor_pressure ambient_pressure ambient_temperature
  measured_humidity * inside_vapor_pressure / ambient_vapor_pressure

/-- `ambient_humidity` of the source with the asserts of its two
`buck_vapor_pressure` calls, evaluated in source order (inside first,
then ambient). -/
noncomputable def ambient_humidity_run
    (measured_humidity measured_temperature measured_pressure : ℝ)
    (ta pa : ℝ) : Except LoggerError ℝ :=
  match buck_vapor_pressure_run measured_pressure measured_temperature with
  | .error e => .error e
  | .ok inside_vapor_pressure =>
    match buck_vapor_pressure_run pa ta with
    | .error e => .error e
    | .ok ambient_vapor_pressure =>
      .ok (measured_humidity * inside_vapor_pressure / ambient_vapor_pressure)

-- ### Basic lemmas about `buck_vapor_pressure`

/-- The source's list-indexed formula agrees with the closed formula of the
specification, with no precondition needed for the plain arithmetic. -/
theorem buck_vapor_pressure_eq_spec (air_pressure temperature : ℝ) :
    buck_vapor_pressure air_pressure temperature =
      spec_saturation_vapor_pressure air_pressure temperature := by
  simp [buck_vapor_pressure, spec_saturation_vapor_pressure, buck_constants]

/-- Positivity of the Buck formula: only `air_pressure > 0` is needed. -/
theorem buck_vapor_pressure_pos (air_pressure temperature : ℝ)
    (hp : air_pressure > 0) : 0 < buck_vapor_pressure air_pressure temperature := by
  rw [buck_vapor_pressure_eq_spec]
  unfold spec_saturation_vapor_pressure
  have h1 : (0:ℝ) < 1.0007 + 3.46e-6 * air_pressure := by nlinarith
  have h2 := Real.exp_pos (17.502 * temperature / (240.97 + temperature))
  positivity

/-- Under the documented preconditions every `assert` of
`buck_vapor_pressure` passes and the checked function returns the value of
the formula. -/
theorem buck_vapor_pressure_run_ok (air_pressure temperature : ℝ)
    (hp : air_pressure > 0) (hlo : temperature ≥ -20) (hhi : temperature ≤ 50) :
    buck_vapor_pressure_run air_pressure temperature =
      .ok (buck_vapor_pressure air_pressure temperature) := by
  unfold buck_vapor_pressure_run
  rw [if_pos hp, if_pos hlo, if_pos hhi,
    if_pos (buck_vapor_pressure_pos air_pressure temperature hp)]

/-- With a positive air pressure and a temperature above the validity
range, `buck_vapor_pressure` fails its third `assert`. -/
theorem buck_vapor_pressure_run_above (air_pressure temperature : ℝ)
    (hp : air_pressure > 0) (hlo : temperature ≥ -20) (hhi : ¬ temperature ≤ 50) :
    buck_vapor_pressure_run air_pressure temperature =
      .error (.InvalidInput "buck_vapor_pressure: temperature above validity range") := by
  unfold buck_vapor_pressure_run
  rw [if_pos hp, if_pos hlo, if_neg hhi]

/-- `buck_vapor_pressure` can only fail with `InvalidInput` or
`InternalError`, never with `SensorOutOfRange`. -/
theorem buck_vapor_pressure_run_ne_out_of_range (air_pressure temperature : ℝ)
    (msg : String) :
    buck_vapor_pressure_run air_pressure temperature ≠
      .error (.SensorOutOfRange msg) := by
  simp only [buck_vapor_pressure_run]
  split_ifs <;> simp

/-- The temperature exponent of the Buck formula is strictly increasing for
temperatures above -240.97 (in particular on the validity range). -/
theorem buck_exponent_strictMono (t1 t2 : ℝ) (h1 : -240.97 < t1) (h12 : t1 < t2) :
    17.502 * t1 / (240.97 + t1) < 17.502 * t2 / (240.97 + t2) := by
  have d1 : (0:ℝ) < 240.97 + t1 := by linarith
  have d2 : (0:ℝ) < 240.97 + t2 := by linarith
  rw [div_lt_div_iff₀ d1 d2]
  nlinarith

/-- Strict monotonicity of the Buck formula in temperature for fixed
positive air pressure. -/
theorem buck_vapor_pressure_strictMono (air_pressure t1 t2 : ℝ)
    (hp : air_pressure > 0) (h1 : -240.97 < t1) (h12 : t1 < t2) :
    buck_vapor_pressure air_pressure t1 < buck_vapor_pressure air_pressure t2 := by
  rw [buck_vapor_pressure_eq_spec, buck_vapor_pressure_eq_spec]
  unfold spec_saturation_vapor_pressure
  have hc : (0:ℝ) < (1.0007 + 3.46e-6 * air_pressure) * 6.1121 := by nlinarith
  exact mul_lt_mul_of_pos_left
    (Real.exp_lt_exp.mpr (buck_exponent_strictMono t1 t2 h1 h12)) hc

-- ### The `Sensor` class

/-- The raw inputs one `update` cycle draws from the outside world: the
three sensor reads and the UTC timestamp from the system clock. -/
structure RawReading where
  humidity : ℝ
  temperature : ℝ
  pressure : ℝ
  timestamp : String

/-- Instance attributes of the Python `Sensor` class that `update` and
`compute_ambient_values` assign. `none` models an attribute that has not
been assigned yet (whose access raises in Python). -/
structure Sensor where
  measured_humidity : Option ℝ
  measured_temperature : Option ℝ
  measured_pressure : Option ℝ
  timestamp : Option String
  ambient_temperature : Option ℝ
  ambient_pressure : Option ℝ
  ambient_humidity : Option ℝ

/-- A freshly constructed `Sensor`: `__init__` assigns none of the
measurement or correction attributes. -/
def Sensor.init : Sensor :=
  ⟨none, none, none, none, none, none, none⟩

/-- `Sensor.compute_ambient_values`: assigns `ambient_temperature`, then
`ambient_pressure`, then `ambient_humidity`; the last assignment can fail
inside `buck_vapor_pressure`, in which case the first two assignments
remain in effect. -/
noncomputable def compute_ambient_values (s : Sensor)
    (mh mt mp : ℝ) : Sensor × Except LoggerError Unit :=
  let s := { s with ambient_temperature := some (ambient_temperature mt) }
  let s := { s with ambient_pressure := some (ambient_pressure mp) }
  match ambient_humidity_run mh mt mp (ambient_temperature mt) (ambient_pressure mp) with
  | .error e => (s, .error e)
  | .ok ah => ({ s with ambient_humidity := some ah }, .ok ())

/-- `Sensor.update`: assigns and validates the three raw readings in
source order (humidity, temperature, pressure), assigns the timestamp,
then calls `compute_ambient_values`. A failed `assert` aborts the cycle
with the attributes assigned so far still in effect. -/
noncomputable def Sensor.update (s : Sensor) (raw : RawReading) :
    Sensor × Except LoggerError Unit :=
  let s := { s with measured_humidity := some raw.humidity }
  if raw.humidity ≥ 0 then
    if raw.humidity ≤ 100 then
      let s := { s with measured_temperature := some raw.temperature }
      if raw.temperature ≥ 0 then
        if raw.temperature ≤ 65 then
          let s := { s with measured_pressure := some raw.pressure }
          if raw.pressure ≥ 260 then
            if raw.pressure ≤ 1260 then
              let s := { s with timestamp := some raw.timestamp }
              compute_ambient_values s raw.humidity raw.temperature raw.pressure
            else (s, .error (.SensorOutOfRange "Sensor.update: pressure > 1260 hPa received from sensor."))
          else (s, .error (.SensorOutOfRange "Sensor.update: pressure < 260 hPa received from sensor."))
        else (s, .error (.SensorOutOfRange "Sensor.update: temperature > 65 °C received from sensor."))
      else (s, .error (.SensorOutOfRange "Sensor.update: temperature < 0 °C received from sensor."))
    else (s, .error (.SensorOutOfRange "Sensor.update: humidity > 100% received from sensor."))
  else (s, .error (.SensorOutOfRange "Sensor.update: humidity < 0% received from sensor."))

/-- One full measurement cycle starting from a fresh sensor object. -/
noncomputable def runCycle (raw : RawReading) : Sensor × Except LoggerError Unit :=
  Sensor.init.update raw

/-- Accessing the `timestamp` attribute (`NotReady` when unassigned). -/
def Sensor.get_timestamp (s : Sensor) : Except LoggerError String :=
  match s.timestamp with
  | none => .error .NotReady
  | some v => .ok v

/-- Accessing the `ambient_humidity` attribute. -/
def Sensor.get_ambient_humidity (s : Sensor) : Except LoggerError ℝ :=
  match s.ambient_humidity with
  | none => .error .NotReady
  | some v => .ok v

/-- Accessing the `ambient_temperature` attribute. -/
def Sensor.get_ambient_temperature (s : Sensor) : Except LoggerError ℝ :=
  match s.ambient_temperature with
  | none => .error .NotReady
  | some v => .ok v

/-- Accessing the `ambient_pressure` attribute. -/
def Sensor.get_ambient_pressure (s : Sensor) : Except LoggerError ℝ :=
  match s.ambient_pressure with
  | none => .error .NotReady
  | some v => .ok v

/-- The raw bounds checked by `Sensor.update`. -/
def rawInBounds (raw : RawReading) : Prop :=
  0 ≤ raw.humidity ∧ raw.humidity ≤ 100 ∧
  0 ≤ raw.temperature ∧ raw.temperature ≤ 65 ∧
  260 ≤ raw.pressure ∧ raw.pressure ≤ 1260

-- ### Helper lemmas about the correction pipeline

/-- Closed form of `ambient_temperature`. -/
theorem ambient_temperature_eq (t : ℝ) :
    ambient_temperature t = 0.8542 * t - 9.675 := by
  unfold ambient_temperature
  ring

/-- For measured temperatures in the sensor-plausible range [0, 65] the
corrected ambient temperature stays inside the Buck validity range. -/
theorem ambient_temperature_range (t : ℝ) (h0 : 0 ≤ t) (h65 : t ≤ 65) :
    -20 ≤ ambient_temperature t ∧ ambient_temperature t ≤ 50 := by
  rw [ambient_temperature_eq]
  constructor <;> nlinarith

/-- When both `buck_vapor_pressure` calls are within their preconditions,
`ambient_humidity` computes without failing an `assert`. -/
theorem ambient_humidity_run_ok (mh mt mp ta pa : ℝ)
    (hmp : mp > 0) (hmt1 : mt ≥ -20) (hmt2 : mt ≤ 50)
    (hpa : pa > 0) (hta1 : ta ≥ -20) (hta2 : ta ≤ 50) :
    ambient_humidity_run mh mt mp ta pa = .ok (ambient_humidity mh mt mp ta pa) := by
  unfold ambient_humidity_run
  rw [buck_vapor_pressure_run_ok mp mt hmp hmt1 hmt2,
    buck_vapor_pressure_run_ok pa ta hpa hta1 hta2]
  rfl

/-- `ambient_humidity` can only fail with `InvalidInput` or
`InternalError`, never with `SensorOutOfRange`. -/
theorem ambient_humidity_run_ne_out_of_range (mh mt mp ta pa : ℝ) (msg : String) :
    ambient_humidity_run mh mt mp ta pa ≠ .error (.SensorOutOfRange msg) := by
  unfold ambient_humidity_run
  intro hcontra
  rcases h1 : buck_vapor_pressure_run mp mt with e1 | v1 <;> rw [h1] at hcontra
  · rw [Except.error.injEq] at hcontra
    exact buck_vapor_pressure_run_ne_out_of_range mp mt msg (by rw [h1, hcontra])
  · rcases h2 : buck_vapor_pressure_run pa ta with e2 | v2 <;> rw [h2] at hcontra
    · rw [Except.error.injEq] at hcontra
      exact buck_vapor_pressure_run_ne_out_of_range pa ta msg (by rw [h2, hcontra])
    · exact Except.noConfusion hcontra

/-- A fully in-range reading with measured temperature at most 50 °C makes
`update` succeed, and the resulting attribute assignments are exactly those
of the source. -/
theorem update_ok (s : Sensor) (raw : RawReading)
    (h1 : 0 ≤ raw.humidity) (h2 : raw.humidity ≤ 100)
    (h3 : 0 ≤ raw.temperature) (h4 : raw.temperature ≤ 50)
    (h5 : 260 ≤ raw.pressure) (h6 : raw.pressure ≤ 1260) :
    s.update raw =
      ({ s with
          measured_humidity := some raw.humidity
          measured_temperature := some raw.temperature
          measured_pressure := some raw.pressure
          timestamp := some raw.timestamp
          ambient_temperature := some (ambient_temperature raw.temperature)
          ambient_pressure := some (ambient_pressure raw.pressure)
          ambient_humidity := some (ambient_humidity raw.humidity raw.temperature
            raw.pressure (ambient_temperature raw.temperature)
            (ambient_pressure raw.pressure)) },
        .ok ()) := by
  have hp : raw.pressure > 0 := by linarith
  have hpa : ambient_pressure raw.pressure > 0 := hp
  obtain ⟨hta1, hta2⟩ := ambient_temperature_range raw.temperature h3 (by linarith)
  simp only [Sensor.update, compute_ambient_values]
  rw [if_pos h1, if_pos h2, if_pos h3, if_pos (by linarith : raw.temperature ≤ 65),
    if_pos h5, if_pos h6,
    ambient_humidity_run_ok raw.humidity raw.temperature raw.pressure
      (ambient_temperature raw.temperature) (ambient_pressure raw.pressure)
      hp (by linarith) h4 hpa hta1 hta2]

/-- An in-range reading with measured temperature strictly above 50 °C
passes all six range checks but fails the upper-temperature `assert` of
the first `buck_vapor_pressure` call; the attributes assigned before the
failure (including `ambient_temperature` and `ambient_pressure`) remain
in effect. -/
theorem update_invalid_above (s : Sensor) (raw : RawReading)
    (h1 : 0 ≤ raw.humidity) (h2 : raw.humidity ≤ 100)
    (h3 : 0 ≤ raw.temperature) (h4 : 50 < raw.temperature)
    (h4h : raw.temperature ≤ 65)
    (h5 : 260 ≤ raw.pressure) (h6 : raw.pressure ≤ 1260) :
    s.update raw =
      ({ s with
          measured_humidity := some raw.humidity
          measured_temperature := some raw.temperature
          measured_pressure := some raw.pressure
          timestamp := some raw.timestamp
          ambient_temperature := some (ambient_temperature raw.temperature)
          ambient_pressure := some (ambient_pressure raw.pressure) },
        .error (.InvalidInput "buck_vapor_pressure: temperature above validity range")) := by
  have hp : raw.pressure > 0 := by linarith
  simp only [Sensor.update, compute_ambient_values, ambient_humidity_run]
  rw [if_pos h1, if_pos h2, if_pos h3, if_pos h4h, if_pos h5, if_pos h6,
    buck_vapor_pressure_run_above raw.pressure raw.temperature hp
      (by linarith) (by linarith)]

/-- A reading violating one of the six range checks makes `update` fail
with `SensorOutOfRange`. -/
theorem update_out_of_range_of_not_inBounds (s : Sensor) (raw : RawReading)
    (h : ¬ rawInBounds raw) :
    ∃ msg, (s.update raw).2 = .error (.SensorOutOfRange msg) := by
  unfold rawInBounds at h
  push_neg at h
  simp only [Sensor.update]
  by_cases h1 : raw.humidity ≥ 0
  · rw [if_pos h1]
    by_cases h2 : raw.humidity ≤ 100
    · rw [if_pos h2]
      by_cases h3 : raw.temperature ≥ 0
      · rw [if_pos h3]
        by_cases h4 : raw.temperature ≤ 65
        · rw [if_pos h4]
          by_cases h5 : raw.pressure ≥ 260
          · rw [if_pos h5]
            by_cases h6 : raw.pressure ≤ 1260
            · exact absurd (h h1 h2 h3 h4 h5) (not_lt.mpr h6)
            · rw [if_neg h6]
              exact ⟨_, rfl⟩
          · rw [if_neg h5]
            exact ⟨_, rfl⟩
        · rw [if_neg h4]
          exact ⟨_, rfl⟩
      · rw [if_neg h3]
        exact ⟨_, rfl⟩
    · rw [if_neg h2]
      exact ⟨_, rfl⟩
  · rw [if_neg h1]
    exact ⟨_, rfl⟩

/-- `update` succeeds exactly on in-range readings whose measured
temperature is at most 50 °C. -/
theorem update_ok_iff (s : Sensor) (raw : RawReading) :
    (s.update raw).2 = .ok () ↔ rawInBounds raw ∧ raw.temperature ≤ 50 := by
  constructor
  · intro hok
    by_cases hb : rawInBounds raw
    · refine ⟨hb, ?_⟩
      by_contra h50
      obtain ⟨b1, b2, b3, b4, b5, b6⟩ := hb
      rw [update_invalid_above s raw b1 b2 b3 (by linarith [lt_of_not_le h50]) b4 b5 b6]
        at hok
      exact Except.noConfusion hok
    · obtain ⟨msg, hmsg⟩ := update_out_of_range_of_not_inBounds s raw hb
      rw [hmsg] at hok
      exact Except.noConfusion hok
  · rintro ⟨⟨b1, b2, b3, b4, b5, b6⟩, h50⟩
    rw [update_ok s raw b1 b2 b3 h50 b5 b6]

-- ### Claim theorems

/-- C1: for every `air_pressure > 0` and every temperature in [-20, 50],
`saturation_vapor_pressure(air_pressure, temperature)` equals
`(1.0007 + 3.46e-6 * air_pressure) * 6.1121 *
exp(17.502 * temperature / (240.97 + temperature))`: the source formula
agrees with the specification formula and the checked function returns
exactly that value. -/
theorem saturation_vapor_pressure_matches_spec_formula (p t : ℝ)
    (hp : p > 0) (h1 : -20 ≤ t) (h2 : t ≤ 50) :
    buck_vapor_pressure p t = spec_saturation_vapor_pressure p t ∧
    buck_vapor_pressure_run p t = .ok (spec_saturation_vapor_pressure p t) := by
  refine ⟨buck_vapor_pressure_eq_spec p t, ?_⟩
  rw [buck_vapor_pressure_run_ok p t hp h1 h2, buck_vapor_pressure_eq_spec]

/-- Witness for C1 at air pressure 1013.25 hPa and temperature 0 °C. -/
theorem saturation_vapor_pressure_matches_spec_formula_witness :
    buck_vapor_pressure 1013.25 0 = spec_saturation_vapor_pressure 1013.25 0 ∧
    buck_vapor_pressure_run 1013.25 0 = .ok (spec_saturation_vapor_pressure 1013.25 0) :=
  saturation_vapor_pressure_matches_spec_formula 1013.25 0
    (by norm_num) (by norm_num) (by norm_num)

/-- C3 counterexample: the claim puts `ambient_temperature(30.0)` at
approximately 16.951, but the code yields exactly 15.951, a full degree
away (so not approximately 16.951 under any reading of the three-decimal
figure). -/
theorem ambient_temperature_at_30_is_not_16_951 :
    ambient_temperature 30 = 15.951 ∧ |ambient_temperature 30 - 16.951| = 1 := by
  rw [ambient_temperature_eq]
  constructor
  · norm_num
  · rw [abs_of_nonpos (by norm_num)]
    norm_num

/-- C3 (amended): `ambient_temperature` is the affine map
`ambient_temperature(t) == 0.8542*t - 9.675` for all finite t, and in
particular `ambient_temperature(30.0)` is exactly 15.951. -/
theorem ambient_temperature_is_affine :
    (∀ t : ℝ, ambient_temperature t = 0.8542 * t - 9.675) ∧
    ambient_temperature 30 = 15.951 := by
  refine ⟨ambient_temperature_eq, ?_⟩
  rw [ambient_temperature_eq]
  norm_num

/-- C5: for fixed `air_pressure > 0`, `saturation_vapor_pressure` is
strictly increasing in temperature on [-20, 50]. -/
theorem saturation_vapor_pressure_strictly_increasing (p t1 t2 : ℝ)
    (hp : p > 0) (h1 : -20 ≤ t1) (h12 : t1 < t2) (h2 : t2 ≤ 50) :
    buck_vapor_pressure p t1 < buck_vapor_pressure p t2 :=
  buck_vapor_pressure_strictMono p t1 t2 hp (by linarith) h12

/-- Witness for C5 at air pressure 1013.25 hPa, temperatures 0 °C and 10 °C. -/
theorem saturation_vapor_pressure_strictly_increasing_witness :
    buck_vapor_pressure 1013.25 0 < buck_vapor_pressure 1013.25 10 :=
  saturation_vapor_pressure_strictly_increasing 1013.25 0 10
    (by norm_num) (by norm_num) (by norm_num) (by norm_num)

/-- C6: for every `air_pressure > 0` and temperature in [-20, 50] the Buck
formula is positive, so the internal non-positive-result check is
unreachable and the checked function returns the computed value. -/
theorem saturation_vapor_pressure_pos_no_internal_error (p t : ℝ)
    (hp : p > 0) (h1 : -20 ≤ t) (h2 : t ≤ 50) :
    0 < buck_vapor_pressure p t ∧
    buck_vapor_pressure_run p t = .ok (buck_vapor_pressure p t) :=
  ⟨buck_vapor_pressure_pos p t hp, buck_vapor_pressure_run_ok p t hp h1 h2⟩

/-- Witness for C6 at air pressure 1000 hPa and temperature 20 °C. -/
theorem saturation_vapor_pressure_pos_no_internal_error_witness :
    0 < buck_vapor_pressure 1000 20 ∧
    buck_vapor_pressure_run 1000 20 = .ok (buck_vapor_pressure 1000 20) :=
  saturation_vapor_pressure_pos_no_internal_error 1000 20
    (by norm_num) (by norm_num) (by norm_num)

/-- C7: round-trip identity: when the measured and ambient temperatures
and pressures coincide (within the vapor-pressure validity domain), the
humidity correction is the identity. -/
theorem ambient_humidity_roundtrip (mh mt mp ta pa : ℝ)
    (hp : mp > 0) (h1 : -20 ≤ mt) (h2 : mt ≤ 50)
    (hteq : mt = ta) (hpeq : mp = pa) :
    ambient_humidity mh mt mp ta pa = mh := by
  subst hteq
  subst hpeq
  simp only [ambient_humidity]
  rw [mul_div_assoc, div_self (ne_of_gt (buck_vapor_pressure_pos mp mt hp)), mul_one]

/-- Witness for C7 at humidity 45 %, temperature 17 °C, pressure 1005 hPa. -/
theorem ambient_humidity_roundtrip_witness :
    ambient_humidity 45 17 1005 17 1005 = 45 :=
  ambient_humidity_roundtrip 45 17 1005 17 1005
    (by norm_num) (by norm_num) (by norm_num) rfl rfl

/-- C8: when the measured temperature strictly exceeds the ambient one and
the pressures coincide (with positive humidity and pressure, temperatures
in [-20, 50]), the inside saturation vapor pressure exceeds the ambient
one and the corrected humidity strictly exceeds the measured one. -/
theorem ambient_humidity_exceeds_measured (mh mt mp ta pa : ℝ)
    (hh : 0 < mh) (hp : 0 < mp) (h1 : -20 ≤ ta) (h2 : ta < mt) (h3 : mt ≤ 50)
    (hpeq : pa = mp) :
    buck_vapor_pressure pa ta < buck_vapor_pressure mp mt ∧
    mh < ambient_humidity mh mt mp ta pa := by
  subst hpeq
  have hlt := buck_vapor_pressure_strictMono pa ta mt hp (by linarith) h2
  refine ⟨hlt, ?_⟩
  simp only [ambient_humidity]
  rw [lt_div_iff₀ (buck_vapor_pressure_pos pa ta hp)]
  exact mul_lt_mul_of_pos_left hlt hh

/-- Witness for C8 at humidity 45 %, measured 32 °C / 1005 hPa, ambient
17 °C / 1005 hPa. -/
theorem ambient_humidity_exceeds_measured_witness :
    buck_vapor_pressure 1005 17 < buck_vapor_pressure 1005 32 ∧
    45 < ambient_humidity 45 32 1005 17 1005 :=
  ambient_humidity_exceeds_measured 45 32 1005 17 1005
    (by norm_num) (by norm_num) (by norm_num) (by norm_num) (by norm_num) rfl

/-- C2: `update` fails with `SensorOutOfRange` exactly when a raw reading
is outside its plausible bounds (humidity [0,100], temperature [0,65],
pressure [260,1260]); in particular humidity=150, temperature=70 and
pressure=200 each fail that way and leave no corrected humidity record. -/
theorem update_out_of_range_exactly_when_raw_out_of_bounds :
    (∀ raw : RawReading,
      (∃ msg, (runCycle raw).2 = .error (.SensorOutOfRange msg)) ↔ ¬ rawInBounds raw) ∧
    (runCycle ⟨150, 25, 1000, "2020-01-01 00:00:00"⟩).2 =
      .error (.SensorOutOfRange "Sensor.update: humidity > 100% received from sensor.") ∧
    (runCycle ⟨150, 25, 1000, "2020-01-01 00:00:00"⟩).1.ambient_humidity = none ∧
    (runCycle ⟨50, 70, 1000, "2020-01-01 00:00:00"⟩).2 =
      .error (.SensorOutOfRange "Sensor.update: temperature > 65 °C received from sensor.") ∧
    (runCycle ⟨50, 70, 1000, "2020-01-01 00:00:00"⟩).1.ambient_humidity = none ∧
    (runCycle ⟨50, 25, 200, "2020-01-01 00:00:00"⟩).2 =
      .error (.SensorOutOfRange "Sensor.update: pressure < 260 hPa received from sensor.") ∧
    (runCycle ⟨50, 25, 200, "2020-01-01 00:00:00"⟩).1.ambient_humidity = none := by
  refine ⟨?_, ?_, ?_, ?_, ?_, ?_, ?_⟩
  · intro raw
    constructor
    · rintro ⟨msg, hmsg⟩ hb
      obtain ⟨b1, b2, b3, b4, b5, b6⟩ := hb
      simp only [runCycle] at hmsg
      rcases le_or_lt raw.temperature 50 with h50 | h50
      · rw [update_ok Sensor.init raw b1 b2 b3 h50 b5 b6] at hmsg
        exact Except.noConfusion hmsg
      · rw [update_invalid_above Sensor.init raw b1 b2 b3 h50 b4 b5 b6] at hmsg
        rw [Except.error.injEq] at hmsg
        exact LoggerError.noConfusion hmsg
    · intro hb
      exact update_out_of_range_of_not_inBounds Sensor.init raw hb
  · norm_num [runCycle, Sensor.update, Sensor.init]
  · norm_num [runCycle, Sensor.update, Sensor.init]
  · norm_num [runCycle, Sensor.update, Sensor.init]
  · norm_num [runCycle, Sensor.update, Sensor.init]
  · norm_num [runCycle, Sensor.update, Sensor.init]
  · norm_num [runCycle, Sensor.update, Sensor.init]

/-- C4 counterexample: an `update` with an in-range reading whose measured
temperature is 60 °C fails (no successful update has happened), yet the
`ambient_temperature`, `ambient_pressure` and `timestamp` accessors of the
corrected record then succeed instead of failing with `NotReady`, because
the failing `assert` fires only after those attributes were assigned. -/
theorem accessor_succeeds_before_first_successful_update :
    (runCycle ⟨50, 60, 1000, "2020-01-01 00:00:00"⟩).2 ≠ .ok () ∧
    (runCycle ⟨50, 60, 1000, "2020-01-01 00:00:00"⟩).1.get_ambient_temperature =
      .ok (ambient_temperature 60) ∧
    (runCycle ⟨50, 60, 1000, "2020-01-01 00:00:00"⟩).1.get_ambient_temperature ≠
      .error .NotReady ∧
    (runCycle ⟨50, 60, 1000, "2020-01-01 00:00:00"⟩).1.get_ambient_pressure =
      .ok (ambient_pressure 1000) ∧
    (runCycle ⟨50, 60, 1000, "2020-01-01 00:00:00"⟩).1.get_timestamp =
      .ok "2020-01-01 00:00:00" := by
  have h := update_invalid_above Sensor.init ⟨50, 60, 1000, "2020-01-01 00:00:00"⟩
    (by norm_num) (by norm_num) (by norm_num) (by norm_num) (by norm_num)
    (by norm_num) (by norm_num)
  simp only [runCycle]
  rw [h]
  refine ⟨by simp, rfl, by simp [Sensor.get_ambient_temperature, Sensor.init], rfl, rfl⟩

/-- C4 (amended): on a fresh `Sensor` instance (before any `update` call)
every corrected-record accessor fails with `NotReady`, and after a
successful `update` all four accessors succeed.  (A failed `update` can
leave some of the attributes assigned, so accessors may succeed even
though no `update` has succeeded yet.) -/
theorem accessors_notReady_on_fresh_ok_after_success :
    (Sensor.init.get_timestamp = .error .NotReady ∧
      Sensor.init.get_ambient_humidity = .error .NotReady ∧
      Sensor.init.get_ambient_temperature = .error .NotReady ∧
      Sensor.init.get_ambient_pressure = .error .NotReady) ∧
    (∀ (s : Sensor) (raw : RawReading), (s.update raw).2 = .ok () →
      (s.update raw).1.get_timestamp = .ok raw.timestamp ∧
      (s.update raw).1.get_ambient_humidity =
        .ok (ambient_humidity raw.humidity raw.temperature raw.pressure
          (ambient_temperature raw.temperature) (ambient_pressure raw.pressure)) ∧
      (s.update raw).1.get_ambient_temperature = .ok (ambient_temperature raw.temperature) ∧
      (s.update raw).1.get_ambient_pressure = .ok (ambient_pressure raw.pressure)) := by
  refine ⟨⟨rfl, rfl, rfl, rfl⟩, ?_⟩
  intro s raw hok
  obtain ⟨⟨b1, b2, b3, b4, b5, b6⟩, h50⟩ := (update_ok_iff s raw).mp hok
  rw [update_ok s raw b1 b2 b3 h50 b5 b6]
  exact ⟨rfl, rfl, rfl, rfl⟩

/-- Witness for (amended) C4: after a successful update with reading
(45 %, 32 °C, 1005 hPa) the timestamp accessor succeeds. -/
theorem accessors_notReady_on_fresh_ok_after_success_witness :
    (Sensor.init.update ⟨45, 32, 1005, "2020-01-01 00:00:01"⟩).1.get_timestamp =
      .ok "2020-01-01 00:00:01" :=
  (accessors_notReady_on_fresh_ok_after_success.2 Sensor.init
    ⟨45, 32, 1005, "2020-01-01 00:00:01"⟩
    ((update_ok_iff Sensor.init ⟨45, 32, 1005, "2020-01-01 00:00:01"⟩).mpr
      ⟨⟨by norm_num, by norm_num, by norm_num, by norm_num, by norm_num, by norm_num⟩,
        by norm_num⟩)).1

/-- C9: `ambient_pressure` is the identity, and the ambient pressure
stored by every successful `update` cycle equals the raw measured
pressure unchanged. -/
theorem ambient_pressure_is_identity :
    (∀ x : ℝ, ambient_pressure x = x) ∧
    (∀ raw : RawReading, (runCycle raw).2 = .ok () →
      (runCycle raw).1.ambient_pressure = some raw.pressure) := by
  refine ⟨fun x => rfl, ?_⟩
  intro raw hok
  simp only [runCycle] at hok ⊢
  obtain ⟨⟨b1, b2, b3, b4, b5, b6⟩, h50⟩ := (update_ok_iff Sensor.init raw).mp hok
  rw [update_ok Sensor.init raw b1 b2 b3 h50 b5 b6]
  rfl

/-- Witness for C9: the successful cycle on reading (45 %, 32 °C,
1005 hPa) stores ambient pressure 1005 hPa. -/
theorem ambient_pressure_is_identity_witness :
    (runCycle ⟨45, 32, 1005, "2020-01-01 00:00:02"⟩).1.ambient_pressure = some 1005 :=
  ambient_pressure_is_identity.2 ⟨45, 32, 1005, "2020-01-01 00:00:02"⟩
    ((update_ok_iff Sensor.init ⟨45, 32, 1005, "2020-01-01 00:00:02"⟩).mpr
      ⟨⟨by norm_num, by norm_num, by norm_num, by norm_num, by norm_num, by norm_num⟩,
        by norm_num⟩)

/-- C10: a reading that passes all range checks can still abort the cycle:
every measured temperature in (50, 65] (with in-range humidity and
pressure) passes validation but fails the Buck upper-temperature
precondition with `InvalidInput`; conversely for measured temperature in
[0, 50] the derived ambient temperature lies in [-20, 50] and the cycle
succeeds. -/
theorem in_range_reading_can_fail_vapor_pressure :
    (∀ raw : RawReading, 0 ≤ raw.humidity → raw.humidity ≤ 100 →
      50 < raw.temperature → raw.temperature ≤ 65 →
      260 ≤ raw.pressure → raw.pressure ≤ 1260 →
      (runCycle raw).2 =
        .error (.InvalidInput "buck_vapor_pressure: temperature above validity range")) ∧
    (∀ raw : RawReading, 0 ≤ raw.humidity → raw.humidity ≤ 100 →
      0 ≤ raw.temperature → raw.temperature ≤ 50 →
      260 ≤ raw.pressure → raw.pressure ≤ 1260 →
      (-20 ≤ ambient_temperature raw.temperature ∧
        ambient_temperature raw.temperature ≤ 50) ∧
      (runCycle raw).2 = .ok ()) := by
  constructor
  · intro raw b1 b2 b3 b4 b5 b6
    simp only [runCycle]
    rw [update_invalid_above Sensor.init raw b1 b2 (by linarith) b3 b4 b5 b6]
  · intro raw b1 b2 b3 b4 b5 b6
    refine ⟨ambient_temperature_range raw.temperature b3 (by linarith), ?_⟩
    simp only [runCycle]
    rw [update_ok Sensor.init raw b1 b2 b3 b4 b5 b6]

/-- Witness for C10: temperature 60 °C passes validation but fails in
`buck_vapor_pressure`; temperature 25 °C gives a fully successful cycle. -/
theorem in_range_reading_can_fail_vapor_pressure_witness :
    (runCycle ⟨50, 60, 1000, "2020-01-01 00:00:03"⟩).2 =
      .error (.InvalidInput "buck_vapor_pressure: temperature above validity range") ∧
    (runCycle ⟨50, 25, 1000, "2020-01-01 00:00:03"⟩).2 = .ok () :=
  ⟨in_range_reading_can_fail_vapor_pressure.1 ⟨50, 60, 1000, "2020-01-01 00:00:03"⟩
      (by norm_num) (by norm_num) (by norm_num) (by norm_num) (by norm_num) (by norm_num),
    (in_range_reading_can_fail_vapor_pressure.2 ⟨50, 25, 1000, "2020-01-01 00:00:03"⟩
      (by norm_num) (by norm_num) (by norm_num) (by norm_num) (by norm_num) (by norm_num)).2⟩
